import Mathlib

/-!
A verification development for a small speech-to-text web application.

The application (file `app.py`) accepts an uploaded audio/video file,
converts it to WAV with the external `ffmpeg` tool when the format is not
natively supported by the recognition model, and runs a FunASR model to
obtain a transcript.  A companion script (`setup_ffmpeg.py`) checks for and
best-effort installs the external tool.

We embed the orchestration logic shallowly: Python values crossing the
dynamically-typed model boundary become an inductive `PyVal`; the
filesystem becomes an explicit record of directories and files; external
effects (the ffmpeg invocation, the model call, UI messages) become an
explicit event trace; exceptions become constructor cases of oracles
describing the environment.
-/

mutual

/-- Python values as they cross the untyped model-result boundary:
`None`, strings, integers, dictionaries (association lists of string keys),
and opaque objects carrying their `str()` rendering. -/
inductive PyVal where
  | pyNone : PyVal
  | pyStr (s : String) : PyVal
  | pyInt (n : Int) : PyVal
  | pyDict (fields : PyFields) : PyVal
  | pyOther (s : String) : PyVal

/-- Bodies of Python dictionaries with string keys and `PyVal` values. -/
inductive PyFields where
  | nil : PyFields
  | cons (k : String) (v : PyVal) (rest : PyFields) : PyFields

end

/-- Python dictionary key lookup (`d[k]` / `k in d`). -/
def dictLookup : PyFields → String → Option PyVal
  | .nil, _ => none
  | .cons k2 v rest, k => if k2 = k then some v else dictLookup rest k

mutual

/-- Models Python `repr()` for the modelled values (used for values nested
inside containers; strings are quoted). -/
def pyRepr : PyVal → String
  | .pyNone => "None"
  | .pyStr s => "\x27" ++ s ++ "\x27"
  | .pyInt n => toString n
  | .pyDict fields => "\x7b" ++ pyReprFields fields ++ "\x7d"
  | .pyOther s => s

/-- Comma-separated `repr` of a dictionary body. -/
def pyReprFields : PyFields → String
  | .nil => ""
  | .cons k v .nil => "\x27" ++ k ++ "\x27: " ++ pyRepr v
  | .cons k v rest => "\x27" ++ k ++ "\x27: " ++ pyRepr v ++ ", " ++ pyReprFields rest

end

/-- Python `str()`: identity on strings, `repr`-like elsewhere. -/
def py_str : PyVal → String
  | .pyStr s => s
  | v => pyRepr v

/-- Python truthiness of the modelled values (`if x:`). -/
def pyTruthy : PyVal → Bool
  | .pyNone => false
  | .pyStr s => s ≠ ""
  | .pyInt n => n ≠ 0
  | .pyDict .nil => false
  | .pyDict (.cons _ _ _) => true
  | .pyOther _ => true

/-- Truthiness of an `Optional` value (`None` is falsy). -/
def optTruthy : Option PyVal → Bool
  | none => false
  | some v => pyTruthy v

/-- The extraction applied to the first element of the model result list
(`app.py` lines 150-155): a dict with a `text` key yields that field, a
string is returned unchanged, anything else is stringified. -/
def extract_first (r : PyVal) : PyVal :=
  match r with
  | .pyDict fields =>
    match dictLookup fields "text" with
    | some v => v
    | none => .pyStr (py_str (.pyDict fields))
  | .pyStr s => .pyStr s
  | other => .pyStr (py_str other)

/-- Result extraction of `SpeechToTextModel.transcribe` (`app.py` lines
148-156): `None` when the result sequence is absent or empty, otherwise the
extraction of the first element. -/
def extract_result : Option (List PyVal) → Option PyVal
  | none => none
  | some [] => none
  | some (r :: _) => some (extract_first r)

/-- Outcome of one call of `model.generate(input=path)`: either a returned
value (possibly `None`, possibly a list of results) or a raised exception
carrying its message. -/
inductive GenResult where
  | value (r : Option (List PyVal)) : GenResult
  | raises (msg : String) : GenResult

/-- Environment oracle for the model boundary: whether lazy construction of
the model raises (with which message), and what `generate` does per input
path. -/
structure ModelEnv where
  loadFails : Option String
  generate : String → GenResult

/-- Observable events of one request: UI messages, the converter call and
the external tool invocation, file writes, and the model calls. -/
inductive Event where
  | stError (msg : String) : Event
  | stInfo (msg : String) : Event
  | stSuccess (msg : String) : Event
  | stSpinner (msg : String) : Event
  | converterCalled (src dst : String) : Event
  | toolInvoked (src dst : String) : Event
  | fileWritten (path : String) (bytes : List Nat) : Event
  | transcribeCalled (path : String) : Event
  | generateCalled (path : String) : Event
deriving DecidableEq

/-- Models `SpeechToTextModel.transcribe` (`app.py` lines 134-159): lazily obtains
the model (whose construction failure is reported and turned into a stop
signal that the surrounding `except` swallows), runs `generate`, extracts
the text from the first result, and converts any exception into an error
message plus a `None` result. -/
def transcribe (menv : ModelEnv) (path : String) : Option PyVal × List Event :=
  match menv.loadFails with
  | some m =>
    (none, [Event.transcribeCalled path,
            Event.stError ("Error loading model: " ++ m),
            Event.stError "Error during transcription: "])
  | none =>
    match menv.generate path with
    | .raises m =>
      (none, [Event.transcribeCalled path, Event.generateCalled path,
              Event.stError ("Error during transcription: " ++ m)])
    | .value r =>
      (extract_result r, [Event.transcribeCalled path, Event.generateCalled path])

/-- Outcome of the external `ffmpeg` invocation: success producing output
bytes, an `ffmpeg.Error` carrying its stderr, or any other exception. -/
inductive FfmpegRun where
  | success (outBytes : List Nat) : FfmpegRun
  | ffmpegError (stderr : String) : FfmpegRun
  | otherError (msg : String) : FfmpegRun

/-- Environment oracle for the converter: whether `ffmpeg` resolves on the
command search path, and what one invocation on a source/destination pair
does. -/
structure ConvEnv where
  ffmpegAvailable : Bool
  runFfmpeg : String → String → FfmpegRun

/-- A filesystem as explicit state: existing directories and files with
their byte contents. -/
structure FS where
  dirs : List String
  files : List (String × List Nat)

/-- Create a directory. -/
def fsMkdir (fs : FS) (d : String) : FS :=
  { fs with dirs := d :: fs.dirs }

/-- Write a file, overwriting any previous contents at that path. -/
def fsWrite (fs : FS) (p : String) (bytes : List Nat) : FS :=
  { fs with files := (p, bytes) :: fs.files.filter (fun f => f.1 != p) }

/-- Read a file's contents, if present. -/
def fsLookup (fs : FS) (p : String) : Option (List Nat) :=
  (fs.files.find? (fun f => f.1 == p)).map Prod.snd

/-- Whether path `p` lies inside directory `d`. -/
def fileInDir (d p : String) : Bool :=
  String.isPrefixOf (d ++ "/") p

/-- Recursive removal of a directory and everything inside it, as performed
by `TemporaryDirectory` cleanup on scope exit. -/
def fsCleanup (fs : FS) (d : String) : FS :=
  { dirs := fs.dirs.filter (fun x => x != d),
    files := fs.files.filter (fun f => !(fileInDir d f.1)) }

/-- The error message shown when `ffmpeg` is missing (`app.py` lines
88-96), with per-platform installation instructions. -/
def ffmpeg_install_msg : String :=
  "❌ **FFmpeg is not installed or not found in PATH.**\n\n" ++
  "FFmpeg is required to convert video files and unsupported audio formats.\n\n" ++
  "**Installation Instructions:**\n" ++
  "- **Ubuntu/Debian:** `sudo apt update && sudo apt install ffmpeg`\n" ++
  "- **macOS:** `brew install ffmpeg`\n" ++
  "- **Windows:** Download from [ffmpeg.org](https://ffmpeg.org/download.html) and add to PATH\n\n" ++
  "After installing FFmpeg, restart the application."

/-- Models `AudioConverter.convert_to_wav` (`app.py` lines 74-113): if `ffmpeg` is
not on the search path, show the installation guidance and report failure
without invoking the tool; otherwise invoke the tool, report success and
write the output file, or catch the raised exception and report failure
with its message. -/
def convert_to_wav (cenv : ConvEnv) (input_path output_path : String) (fs : FS) :
    Bool × FS × List Event :=
  if cenv.ffmpegAvailable = false then
    (false, fs, [Event.converterCalled input_path output_path,
                 Event.stError ffmpeg_install_msg])
  else
    match cenv.runFfmpeg input_path output_path with
    | .success outBytes =>
      (true, fsWrite fs output_path outBytes,
       [Event.converterCalled input_path output_path,
        Event.toolInvoked input_path output_path])
    | .ffmpegError stderr =>
      (false, fs, [Event.converterCalled input_path output_path,
                   Event.toolInvoked input_path output_path,
                   Event.stError ("FFmpeg conversion error: " ++ stderr)])
    | .otherError m =>
      (false, fs, [Event.converterCalled input_path output_path,
                   Event.toolInvoked input_path output_path,
                   Event.stError ("Unexpected error during conversion: " ++ m)])

/-- Whether one converter call reports success: the tool must be available
and the invocation must succeed. -/
def conversion_ok (cenv : ConvEnv) (input_path output_path : String) : Bool :=
  cenv.ffmpegAvailable &&
    (match cenv.runFfmpeg input_path output_path with
     | .success _ => true
     | _ => false)

/-- The audio formats natively accepted by the recognition model
(`app.py` line 25). -/
def FUNASR_SUPPORTED_FORMATS : List String :=
  [".wav", ".mp3", ".flac", ".m4a", ".ogg"]

/-- All selectable upload formats (`app.py` lines 28-31). -/
def ACCEPTED_FORMATS : List String :=
  [".wav", ".mp3", ".flac", ".m4a", ".ogg", ".wma", ".aac",
   ".mp4", ".avi", ".mkv", ".mov", ".wmv", ".webm", ".3gp"]

/-- Split a character list on `/` separators. -/
def splitOnSlash : List Char → List (List Char)
  | [] => [[]]
  | c :: rest =>
    let r := splitOnSlash rest
    if c = '/' then [] :: r
    else
      match r with
      | [] => [[c]]
      | g :: gs => (c :: g) :: gs

/-- Final path component (`pathlib` takes the suffix of the last
component). -/
def lastComponent (s : String) : String :=
  String.mk ((splitOnSlash s.toList).getLastD s.toList)

/-- Index of the last dot in a character list, if any. -/
def lastDotIdx : List Char → Option Nat
  | [] => none
  | c :: rest =>
    match lastDotIdx rest with
    | some i => some (i + 1)
    | none => if c = '.' then some 0 else none

/-- Python `Path(name).suffix`: the final dot-suffix of the last component,
empty when the last component has no dot, starts with its only dot, or ends
with its last dot. -/
def pySuffix (name : String) : String :=
  let cs := (lastComponent name).toList
  match lastDotIdx cs with
  | none => ""
  | some i => if 0 < i ∧ i + 1 < cs.length then String.mk (cs.drop i) else ""

/-- Python `str.lower` restricted to the ASCII range arising in extensions. -/
def strLower (s : String) : String :=
  String.mk (s.toList.map Char.toLower)

/-- Models `os.path.join` for our always-relative second components. -/
def pathJoin (d n : String) : String :=
  d ++ "/" ++ n

/-- An uploaded file: a declared filename and a byte buffer. -/
structure Upload where
  name : String
  buffer : List Nat

/-- The observable outcome of `process_audio_file`: the returned value, the
filesystem just before scope exit, the filesystem after scope exit, and the
event trace. -/
structure ProcOut where
  result : Option PyVal
  preFs : FS
  fs : FS
  events : List Event

/-- The body of the `with TemporaryDirectory()` block of
`process_audio_file` (`app.py` lines 183-206): persist the upload, use it
directly when the extension is natively supported, otherwise convert to
`converted.wav` and stop on conversion failure, then transcribe. -/
def process_audio_body (u : Upload) (menv : ModelEnv) (cenv : ConvEnv)
    (tempDir : String) (fs : FS) : Option PyVal × FS × List Event :=
  let file_extension := strLower (pySuffix u.name)
  let input_path := pathJoin tempDir u.name
  let fs1 := fsWrite fs input_path u.buffer
  let wEv := [Event.fileWritten input_path u.buffer]
  if file_extension ∈ FUNASR_SUPPORTED_FORMATS then
    let t := transcribe menv input_path
    (t.1, fs1, wEv ++ [Event.stSpinner "Transcribing audio..."] ++ t.2)
  else
    let output_path := pathJoin tempDir "converted.wav"
    let c := convert_to_wav cenv input_path output_path fs1
    if c.1 then
      let t := transcribe menv output_path
      (t.1, c.2.1,
       wEv ++ [Event.stInfo ("Converting " ++ file_extension ++ " to WAV format...")] ++
         c.2.2 ++
         [Event.stSuccess "Conversion successful!",
          Event.stSpinner "Transcribing audio..."] ++ t.2)
    else
      (none, c.2.1,
       wEv ++ [Event.stInfo ("Converting " ++ file_extension ++ " to WAV format...")] ++
         c.2.2)

/-- Models `process_audio_file` (`app.py` lines 162-206): create the scoped
temporary directory, run the body, and remove the directory on every exit
path. -/
def process_audio_file (u : Upload) (menv : ModelEnv) (cenv : ConvEnv)
    (tempDir : String) (fs0 : FS) : ProcOut :=
  let fs1 := fsMkdir fs0 tempDir
  let b := process_audio_body u menv cenv tempDir fs1
  { result := b.1, preFs := b.2.1, fs := fsCleanup b.2.1 tempDir, events := b.2.2 }

/-- The truthiness test `main` applies to the returned transcription before
displaying it as a success (`app.py` lines 247-267). -/
def transcription_displayed (t : Option PyVal) : Bool :=
  optTruthy t

/-- Outcome of one `subprocess.run` call in the setup script: normal
completion, `CalledProcessError`, `TimeoutExpired`, `FileNotFoundError`, or
another exception. -/
inductive AptResult where
  | ok : AptResult
  | calledProcessError (msg : String) : AptResult
  | timeoutExpired : AptResult
  | fileNotFound : AptResult
  | otherExn (msg : String) : AptResult

/-- Environment oracle for `setup_ffmpeg.py`: the search-path check before
and after installation, the Streamlit Cloud environment variables, the
platform name, and the outcomes of the two `apt-get` invocations. -/
structure SetupEnv where
  whichBefore : Bool
  streamlitSharingMode : Option String
  streamlitServerHeadless : Option String
  system : String
  aptUpdate : AptResult
  aptInstall : AptResult
  whichAfter : Bool

/-- Observable events of the setup script: the two `apt-get` subprocess
invocations (OS-level installation attempts). -/
inductive SetupEvent where
  | aptUpdateInvoked : SetupEvent
  | aptInstallInvoked : SetupEvent
deriving DecidableEq

/-- Models `install_ffmpeg_linux` (`setup_ffmpeg.py` lines 25-65): run
`apt-get update` then `apt-get install -y ffmpeg`, catching every
exception; returns success only when both commands complete. -/
def install_ffmpeg_linux (env : SetupEnv) : Bool × List SetupEvent :=
  match env.aptUpdate with
  | .ok =>
    match env.aptInstall with
    | .ok => (true, [SetupEvent.aptUpdateInvoked, SetupEvent.aptInstallInvoked])
    | _ => (false, [SetupEvent.aptUpdateInvoked, SetupEvent.aptInstallInvoked])
  | _ => (false, [SetupEvent.aptUpdateInvoked])

/-- Models `check_streamlit_cloud` (`setup_ffmpeg.py` lines 68-79). -/
def check_streamlit_cloud (env : SetupEnv) : Bool :=
  env.streamlitSharingMode.isSome || env.streamlitServerHeadless == some "true"

/-- Models `setup_ffmpeg` (`setup_ffmpeg.py` lines 82-154): succeed at once when
the tool is already installed; in a Streamlit Cloud environment defer to
the package manifest and fail; on Linux attempt installation and re-verify;
otherwise print manual instructions and fail. -/
def setup_ffmpeg (env : SetupEnv) : Bool × List SetupEvent :=
  if env.whichBefore then (true, [])
  else if check_streamlit_cloud env then (false, [])
  else if env.system = "linux" then
    let inst := install_ffmpeg_linux env
    if inst.1 then
      if env.whichAfter then (true, inst.2)
      else (false, inst.2)
    else (false, inst.2)
  else (false, [])

/-- The `__main__` exit code of the setup script (`setup_ffmpeg.py` lines
157-159). -/
def setup_main_exit_code (env : SetupEnv) : Nat :=
  if (setup_ffmpeg env).1 then 0 else 1

/-- Whether the tool resolves on the search path once the script finishes:
the result of the initial check, unless a completed installation attempt
changed it. -/
def ffmpeg_available_after (env : SetupEnv) : Bool :=
  if env.whichBefore then true
  else if check_streamlit_cloud env then false
  else if env.system = "linux" then
    if (install_ffmpeg_linux env).1 then env.whichAfter else false
  else false

/-- Recognizes converter invocations in a trace. -/
def isConverterCall : Event → Bool
  | Event.converterCalled _ _ => true
  | _ => false

/-- Recognizes transcription-step invocations in a trace. -/
def isTranscribeCall : Event → Bool
  | Event.transcribeCalled _ => true
  | _ => false

/-- Recognizes external-tool invocations in a trace. -/
def isToolInvocation : Event → Bool
  | Event.toolInvoked _ _ => true
  | _ => false

/-- The event filter selecting converter invocations. -/
def converterCalls (evs : List Event) : List Event :=
  evs.filter isConverterCall

/-- The event filter selecting transcription-step invocations. -/
def transcribeCalls (evs : List Event) : List Event :=
  evs.filter isTranscribeCall

/-- The event filter selecting external-tool invocations. -/
def toolInvocations (evs : List Event) : List Event :=
  evs.filter isToolInvocation

/-- Whether an `Optional` transcription value is `None` or a string, the
shape promised by the annotation of `transcribe`. -/
def str_or_none : Option PyVal → Bool
  | none => true
  | some (.pyStr _) => true
  | some _ => false

/-- An empty filesystem, used as a concrete starting state. -/
def emptyFS : FS :=
  { dirs := [], files := [] }

/-- A model environment returning a fixed `generate` value on every path. -/
def mEnvOf (r : Option (List PyVal)) : ModelEnv :=
  { loadFails := none, generate := fun _ => GenResult.value r }

/-- A model environment whose `generate` raises. -/
def mEnvRaises : ModelEnv :=
  { loadFails := none, generate := fun _ => GenResult.raises "boom" }

/-- A model environment whose lazy model construction raises. -/
def mEnvLoadFails : ModelEnv :=
  { loadFails := some "no weights", generate := fun _ => GenResult.value none }

/-- A model environment producing a first result whose text field is not a
string. -/
def mEnvIntText : ModelEnv :=
  { loadFails := none,
    generate := fun _ =>
      GenResult.value (some [PyVal.pyDict (.cons "text" (.pyInt 42) .nil)]) }

/-- A converter environment with the tool present and succeeding. -/
def cEnvOk : ConvEnv :=
  { ffmpegAvailable := true, runFfmpeg := fun _ _ => FfmpegRun.success [1, 2] }

/-- A converter environment with the tool absent. -/
def cEnvNoTool : ConvEnv :=
  { ffmpegAvailable := false, runFfmpeg := fun _ _ => FfmpegRun.success [] }

/-- A converter environment with the tool present but failing. -/
def cEnvToolErr : ConvEnv :=
  { ffmpegAvailable := true, runFfmpeg := fun _ _ => FfmpegRun.ffmpegError "bad stream" }

/-- A converter environment raising an unexpected exception. -/
def cEnvToolExn : ConvEnv :=
  { ffmpegAvailable := true, runFfmpeg := fun _ _ => FfmpegRun.otherError "oops" }

/-- A natively-supported upload. -/
def sampleWav : Upload :=
  { name := "speech.wav", buffer := [0, 1] }

/-- An upload requiring conversion. -/
def sampleMp4 : Upload :=
  { name := "clip.mp4", buffer := [2, 3] }

/-- A managed-hosting environment with the tool absent. -/
def setupEnvCloud : SetupEnv :=
  { whichBefore := false, streamlitSharingMode := some "1",
    streamlitServerHeadless := none, system := "linux",
    aptUpdate := AptResult.ok, aptInstall := AptResult.ok, whichAfter := true }

/-- The boolean success reported by one converter call does not depend on
the filesystem: it equals `conversion_ok`. -/
theorem convert_to_wav_fst (cenv : ConvEnv) (i o : String) (fs : FS) :
    (convert_to_wav cenv i o fs).1 = conversion_ok cenv i o := by
  unfold convert_to_wav conversion_ok
  cases h : cenv.ffmpegAvailable
  · simp [h]
  · cases h2 : cenv.runFfmpeg i o <;> simp [h, h2]

/-- Every run of `transcribe` records exactly one transcription-step call,
on its argument path. -/
theorem transcribeCalls_transcribe (menv : ModelEnv) (p : String) :
    (transcribe menv p).2.filter isTranscribeCall = [Event.transcribeCalled p] := by
  unfold transcribe
  cases h : menv.loadFails
  · cases h2 : menv.generate p <;> simp [isTranscribeCall, List.filter]
  · simp [isTranscribeCall, List.filter]

/-- The function `transcribe` never records a converter call. -/
theorem converterCalls_transcribe (menv : ModelEnv) (p : String) :
    (transcribe menv p).2.filter isConverterCall = [] := by
  unfold transcribe
  cases h : menv.loadFails
  · cases h2 : menv.generate p <;> simp [isConverterCall, List.filter]
  · simp [isConverterCall, List.filter]

/-- Removing a directory removes it from the directory list. -/
theorem fsCleanup_contains (fs : FS) (d : String) :
    ((fsCleanup fs d).dirs.contains d) = false := by
  simp [fsCleanup]

/-- After removal, no remaining file lies inside the removed directory. -/
theorem fsCleanup_files (fs : FS) (d : String) :
    (fsCleanup fs d).files.all (fun f => !(fileInDir d f.1)) = true := by
  simp only [fsCleanup]
  rw [List.all_eq_true]
  intro f hf
  exact (List.mem_filter.mp hf).2

/-- Reading back the path just written yields the written bytes. -/
theorem fsLookup_fsWrite_self (fs : FS) (p : String) (b : List Nat) :
    fsLookup (fsWrite fs p b) p = some b := by
  simp [fsLookup, fsWrite, List.find?]

/-- Filtering out entries of a different key does not change a lookup. -/
theorem find_filter_ne (l : List (String × List Nat)) (p q : String) (h : q ≠ p) :
    (l.filter (fun f => f.1 != q)).find? (fun f => f.1 == p)
      = l.find? (fun f => f.1 == p) := by
  induction l with
  | nil => rfl
  | cons x xs ih =>
    rcases eq_or_ne x.1 q with hq | hq
    · rw [List.filter_cons_of_neg (by simp [hq]),
        List.find?_cons_of_neg xs (by simp [hq, h]), ih]
    · rw [List.filter_cons_of_pos (by simp [hq])]
      rcases eq_or_ne x.1 p with hp | hp
      · rw [List.find?_cons_of_pos _ (by simp [hp]), List.find?_cons_of_pos _ (by simp [hp])]
      · rw [List.find?_cons_of_neg _ (by simp [hp]), List.find?_cons_of_neg _ (by simp [hp]), ih]

/-- A second write to a different path preserves the first write. -/
theorem fsLookup_fsWrite_ne (fs : FS) (p q : String) (b : List Nat)
    (h : q ≠ p) : fsLookup (fsWrite fs q b) p = fsLookup fs p := by
  simp only [fsLookup, fsWrite]
  rw [List.find?_cons_of_neg _ (by simp [h]), find_filter_ne fs.files p q h]

/-- Joining distinct final components under the same directory yields
distinct paths. -/
theorem pathJoin_right_inj {d a b : String} (h : pathJoin d a = pathJoin d b) :
    a = b := by
  unfold pathJoin at h
  have h2 : (d ++ "/" ++ a).data = (d ++ "/" ++ b).data := by rw [h]
  simp only [String.data_append, List.append_cancel_left_eq] at h2
  exact String.ext h2

/-- C1: the transcription result extraction of `SpeechToTextModel.transcribe`
follows the ordered policy: a structured first result with a `text` field
yields that field's value; a plain-string first result is returned
unchanged; any other first result is stringified; an empty or absent result
sequence yields the failure value `none`.  In particular a first result
`{"text": "hello"}` yields `"hello"`, `"hello"` yields `"hello"`, and `42`
yields `"42"`. -/
theorem transcribe_extraction_policy :
    (∀ (menv : ModelEnv) (path : String) (fields : PyFields) (rest : List PyVal) (v : PyVal),
        menv.loadFails = none →
        menv.generate path = GenResult.value (some (PyVal.pyDict fields :: rest)) →
        dictLookup fields "text" = some v →
        (transcribe menv path).1 = some v)
  ∧ (∀ (menv : ModelEnv) (path s : String) (rest : List PyVal),
        menv.loadFails = none →
        menv.generate path = GenResult.value (some (PyVal.pyStr s :: rest)) →
        (transcribe menv path).1 = some (PyVal.pyStr s))
  ∧ (∀ (menv : ModelEnv) (path : String) (r : PyVal) (rest : List PyVal),
        menv.loadFails = none →
        menv.generate path = GenResult.value (some (r :: rest)) →
        (∀ fields, r = PyVal.pyDict fields → dictLookup fields "text" = none) →
        (∀ s, r ≠ PyVal.pyStr s) →
        (transcribe menv path).1 = some (PyVal.pyStr (py_str r)))
  ∧ (∀ (menv : ModelEnv) (path : String),
        menv.loadFails = none →
        (menv.generate path = GenResult.value (some []) ∨
          menv.generate path = GenResult.value none) →
        (transcribe menv path).1 = none)
  ∧ extract_result (some [PyVal.pyDict (.cons "text" (.pyStr "hello") .nil)])
      = some (PyVal.pyStr "hello")
  ∧ extract_result (some [PyVal.pyStr "hello"]) = some (PyVal.pyStr "hello")
  ∧ extract_result (some [PyVal.pyInt 42]) = some (PyVal.pyStr "42")
  ∧ extract_result (some []) = none
  ∧ extract_result none = none := by
  refine ⟨?_, ?_, ?_, ?_, rfl, rfl, ?_, rfl, rfl⟩
  · intro menv path fields rest v h1 h2 h3
    simp [transcribe, h1, h2, extract_result, extract_first, h3]
  · intro menv path s rest h1 h2
    simp [transcribe, h1, h2, extract_result, extract_first]
  · intro menv path r rest h1 h2 hnd hns
    cases r with
    | pyNone => simp [transcribe, h1, h2, extract_result, extract_first, py_str]
    | pyStr s => exact absurd rfl (hns s)
    | pyInt n => simp [transcribe, h1, h2, extract_result, extract_first, py_str]
    | pyDict fields =>
      simp [transcribe, h1, h2, extract_result, extract_first, hnd fields rfl, py_str]
    | pyOther s => simp [transcribe, h1, h2, extract_result, extract_first, py_str]
  · intro menv path h1 h2
    rcases h2 with h2 | h2 <;> simp [transcribe, h1, h2, extract_result]
  · rfl

/-- Witness for C1: the extraction policy evaluated on the three concrete
first results of the claim, with every hypothesis discharged on concrete
environments. -/
theorem transcribe_extraction_policy_witness :
    (transcribe (mEnvOf (some [PyVal.pyDict (.cons "text" (.pyStr "hello") .nil)])) "a.wav").1
        = some (PyVal.pyStr "hello")
    ∧ (transcribe (mEnvOf (some [PyVal.pyStr "hello"])) "a.wav").1 = some (PyVal.pyStr "hello")
    ∧ (transcribe (mEnvOf (some [PyVal.pyInt 42])) "a.wav").1 = some (PyVal.pyStr "42")
    ∧ (transcribe (mEnvOf (some [])) "a.wav").1 = none :=
  ⟨transcribe_extraction_policy.1 _ "a.wav" (.cons "text" (.pyStr "hello") .nil) [] _ rfl rfl rfl,
   transcribe_extraction_policy.2.1 _ "a.wav" "hello" [] rfl rfl,
   transcribe_extraction_policy.2.2.1 _ "a.wav" (PyVal.pyInt 42) [] rfl rfl
     (fun _ h => by cases h) (fun _ h => by cases h),
   transcribe_extraction_policy.2.2.2.1 _ "a.wav" rfl (Or.inl rfl)⟩

/-- C3: on an upload whose lowercase extension is natively supported,
`process_audio_file` records no converter call and transcribes the
persisted upload file directly. -/
theorem native_format_no_conversion
    (u : Upload) (menv : ModelEnv) (cenv : ConvEnv) (tempDir : String) (fs0 : FS)
    (hext : strLower (pySuffix u.name) ∈ FUNASR_SUPPORTED_FORMATS) :
    converterCalls (process_audio_file u menv cenv tempDir fs0).events = []
    ∧ transcribeCalls (process_audio_file u menv cenv tempDir fs0).events
        = [Event.transcribeCalled (pathJoin tempDir u.name)] := by
  unfold process_audio_file process_audio_body
  constructor <;>
    simp [hext, converterCalls, transcribeCalls, List.filter_append,
      converterCalls_transcribe, transcribeCalls_transcribe,
      isConverterCall, isTranscribeCall, List.filter]

/-- Witness for C3: a concrete `speech.wav` upload is transcribed without
any converter call. -/
theorem native_format_no_conversion_witness :
    converterCalls (process_audio_file sampleWav (mEnvOf (some [PyVal.pyStr "hi"]))
        cEnvOk "/tmp/req" emptyFS).events = []
    ∧ transcribeCalls (process_audio_file sampleWav (mEnvOf (some [PyVal.pyStr "hi"]))
        cEnvOk "/tmp/req" emptyFS).events
        = [Event.transcribeCalled (pathJoin "/tmp/req" "speech.wav")] :=
  native_format_no_conversion sampleWav (mEnvOf (some [PyVal.pyStr "hi"]))
    cEnvOk "/tmp/req" emptyFS (by decide)

/-- C2: on an upload whose lowercase extension is not natively supported,
`process_audio_file` records exactly one converter call, from the saved
input path to `converted.wav` in the scoped directory; the transcription
step runs exactly when that conversion reports success, on the converted
file; and on conversion failure the result is the failure value with no
transcription attempted. -/
theorem convertible_format_conversion_flow
    (u : Upload) (menv : ModelEnv) (cenv : ConvEnv) (tempDir : String) (fs0 : FS)
    (hext : strLower (pySuffix u.name) ∉ FUNASR_SUPPORTED_FORMATS) :
    converterCalls (process_audio_file u menv cenv tempDir fs0).events
        = [Event.converterCalled (pathJoin tempDir u.name) (pathJoin tempDir "converted.wav")]
    ∧ (conversion_ok cenv (pathJoin tempDir u.name) (pathJoin tempDir "converted.wav") = true →
        transcribeCalls (process_audio_file u menv cenv tempDir fs0).events
          = [Event.transcribeCalled (pathJoin tempDir "converted.wav")])
    ∧ (conversion_ok cenv (pathJoin tempDir u.name) (pathJoin tempDir "converted.wav") = false →
        transcribeCalls (process_audio_file u menv cenv tempDir fs0).events = []
        ∧ (process_audio_file u menv cenv tempDir fs0).result = none) := by
  unfold process_audio_file process_audio_body
  cases havail : cenv.ffmpegAvailable with
  | false =>
    refine ⟨?_, ?_, ?_⟩ <;>
      simp [hext, convert_to_wav, conversion_ok, havail, converterCalls, transcribeCalls,
        isConverterCall, isTranscribeCall, List.filter]
  | true =>
    cases hrun : cenv.runFfmpeg (pathJoin tempDir u.name) (pathJoin tempDir "converted.wav") with
    | success outBytes =>
      refine ⟨?_, ?_, ?_⟩ <;>
        simp [hext, convert_to_wav, conversion_ok, havail, hrun, converterCalls, transcribeCalls,
          List.filter_append, converterCalls_transcribe, transcribeCalls_transcribe,
          isConverterCall, isTranscribeCall, List.filter]
    | ffmpegError e =>
      refine ⟨?_, ?_, ?_⟩ <;>
        simp [hext, convert_to_wav, conversion_ok, havail, hrun, converterCalls, transcribeCalls,
          isConverterCall, isTranscribeCall, List.filter]
    | otherError m =>
      refine ⟨?_, ?_, ?_⟩ <;>
        simp [hext, convert_to_wav, conversion_ok, havail, hrun, converterCalls, transcribeCalls,
          isConverterCall, isTranscribeCall, List.filter]

/-- Witness for C2: a concrete `clip.mp4` upload with a succeeding
converter records one converter call and one transcription of the
converted file; with the tool absent it fails with no transcription. -/
theorem convertible_format_conversion_flow_witness :
    converterCalls (process_audio_file sampleMp4 (mEnvOf (some [PyVal.pyStr "hi"]))
        cEnvOk "/tmp/req" emptyFS).events
      = [Event.converterCalled (pathJoin "/tmp/req" "clip.mp4")
           (pathJoin "/tmp/req" "converted.wav")]
    ∧ transcribeCalls (process_audio_file sampleMp4 (mEnvOf (some [PyVal.pyStr "hi"]))
        cEnvOk "/tmp/req" emptyFS).events
      = [Event.transcribeCalled (pathJoin "/tmp/req" "converted.wav")]
    ∧ (transcribeCalls (process_audio_file sampleMp4 (mEnvOf (some [PyVal.pyStr "hi"]))
        cEnvNoTool "/tmp/req" emptyFS).events = []
       ∧ (process_audio_file sampleMp4 (mEnvOf (some [PyVal.pyStr "hi"]))
            cEnvNoTool "/tmp/req" emptyFS).result = none) :=
  ⟨(convertible_format_conversion_flow sampleMp4 (mEnvOf (some [PyVal.pyStr "hi"]))
      cEnvOk "/tmp/req" emptyFS (by decide)).1,
   (convertible_format_conversion_flow sampleMp4 (mEnvOf (some [PyVal.pyStr "hi"]))
      cEnvOk "/tmp/req" emptyFS (by decide)).2.1 rfl,
   (convertible_format_conversion_flow sampleMp4 (mEnvOf (some [PyVal.pyStr "hi"]))
      cEnvNoTool "/tmp/req" emptyFS (by decide)).2.2 rfl⟩

/-- C4: when the external tool is not resolvable on the search path,
`convert_to_wav` reports failure without invoking the tool, leaves the
filesystem unchanged, and presents the per-platform installation
guidance. -/
theorem convert_missing_tool_no_invoke
    (cenv : ConvEnv) (i o : String) (fs : FS) (h : cenv.ffmpegAvailable = false) :
    (convert_to_wav cenv i o fs).1 = false
    ∧ toolInvocations (convert_to_wav cenv i o fs).2.2 = []
    ∧ Event.stError ffmpeg_install_msg ∈ (convert_to_wav cenv i o fs).2.2
    ∧ (convert_to_wav cenv i o fs).2.1 = fs := by
  refine ⟨?_, ?_, ?_, ?_⟩ <;>
    simp [convert_to_wav, h, toolInvocations, isToolInvocation, List.filter]

/-- Witness for C4: the tool-absent environment on concrete paths. -/
theorem convert_missing_tool_no_invoke_witness :
    (convert_to_wav cEnvNoTool "/tmp/a.mp4" "/tmp/converted.wav" emptyFS).1 = false
    ∧ toolInvocations (convert_to_wav cEnvNoTool "/tmp/a.mp4" "/tmp/converted.wav" emptyFS).2.2 = []
    ∧ Event.stError ffmpeg_install_msg
        ∈ (convert_to_wav cEnvNoTool "/tmp/a.mp4" "/tmp/converted.wav" emptyFS).2.2
    ∧ (convert_to_wav cEnvNoTool "/tmp/a.mp4" "/tmp/converted.wav" emptyFS).2.1 = emptyFS :=
  convert_missing_tool_no_invoke cEnvNoTool "/tmp/a.mp4" "/tmp/converted.wav" emptyFS rfl

/-- C5: the scoped temporary directory no longer exists after
`process_audio_file` returns, and no file under it remains, on every exit
path. -/
theorem temp_dir_removed_all_paths
    (u : Upload) (menv : ModelEnv) (cenv : ConvEnv) (tempDir : String) (fs0 : FS) :
    ((process_audio_file u menv cenv tempDir fs0).fs.dirs.contains tempDir) = false
    ∧ (process_audio_file u menv cenv tempDir fs0).fs.files.all
        (fun f => !(fileInDir tempDir f.1)) = true := by
  unfold process_audio_file
  exact ⟨fsCleanup_contains _ tempDir, fsCleanup_files _ tempDir⟩

/-- C6: `process_audio_file` first persists the upload's byte buffer to a
file inside the scoped temporary directory named with the declared
filename, and that file holds exactly the uploaded bytes just before the
scope is torn down. -/
theorem upload_persisted_in_temp_dir
    (u : Upload) (menv : ModelEnv) (cenv : ConvEnv) (tempDir : String) (fs0 : FS) :
    (process_audio_file u menv cenv tempDir fs0).events.head?
        = some (Event.fileWritten (pathJoin tempDir u.name) u.buffer)
    ∧ fsLookup (process_audio_file u menv cenv tempDir fs0).preFs (pathJoin tempDir u.name)
        = some u.buffer := by
  unfold process_audio_file process_audio_body
  by_cases hext : strLower (pySuffix u.name) ∈ FUNASR_SUPPORTED_FORMATS
  · constructor
    · simp [hext]
    · simp [hext, fsLookup_fsWrite_self]
  · have hname : u.name ≠ "converted.wav" := by
      intro he
      apply hext
      rw [he]
      decide
    have hio : pathJoin tempDir "converted.wav" ≠ pathJoin tempDir u.name := by
      intro hcontra
      exact hname (pathJoin_right_inj hcontra).symm
    cases havail : cenv.ffmpegAvailable with
    | false =>
      constructor <;> simp [hext, convert_to_wav, havail, fsLookup_fsWrite_self]
    | true =>
      cases hrun : cenv.runFfmpeg (pathJoin tempDir u.name) (pathJoin tempDir "converted.wav") with
      | success b =>
        constructor
        · simp [hext, convert_to_wav, havail, hrun]
        · simp [hext, convert_to_wav, havail, hrun,
            fsLookup_fsWrite_ne _ _ _ _ hio, fsLookup_fsWrite_self]
      | ffmpegError e =>
        constructor <;> simp [hext, convert_to_wav, havail, hrun, fsLookup_fsWrite_self]
      | otherError m =>
        constructor <;> simp [hext, convert_to_wav, havail, hrun, fsLookup_fsWrite_self]

/-- C7: exceptions raised by the external tool or by the model (including
during lazy construction) never propagate out of `convert_to_wav` or
`transcribe`: each is caught at the call site and turned into a failure
result (`false` / `none`) with a user-facing error message. -/
theorem exceptions_converted_to_failure :
    (∀ (cenv : ConvEnv) (i o : String) (fs : FS) (e : String),
        cenv.ffmpegAvailable = true →
        cenv.runFfmpeg i o = FfmpegRun.ffmpegError e →
        (convert_to_wav cenv i o fs).1 = false
        ∧ Event.stError ("FFmpeg conversion error: " ++ e) ∈ (convert_to_wav cenv i o fs).2.2)
  ∧ (∀ (cenv : ConvEnv) (i o : String) (fs : FS) (m : String),
        cenv.ffmpegAvailable = true →
        cenv.runFfmpeg i o = FfmpegRun.otherError m →
        (convert_to_wav cenv i o fs).1 = false
        ∧ Event.stError ("Unexpected error during conversion: " ++ m)
            ∈ (convert_to_wav cenv i o fs).2.2)
  ∧ (∀ (menv : ModelEnv) (p m : String),
        menv.loadFails = some m →
        (transcribe menv p).1 = none
        ∧ Event.stError ("Error loading model: " ++ m) ∈ (transcribe menv p).2)
  ∧ (∀ (menv : ModelEnv) (p m : String),
        menv.loadFails = none →
        menv.generate p = GenResult.raises m →
        (transcribe menv p).1 = none
        ∧ Event.stError ("Error during transcription: " ++ m) ∈ (transcribe menv p).2) := by
  refine ⟨?_, ?_, ?_, ?_⟩
  · intro cenv i o fs e h1 h2
    constructor <;> simp [convert_to_wav, h1, h2]
  · intro cenv i o fs m h1 h2
    constructor <;> simp [convert_to_wav, h1, h2]
  · intro menv p m h1
    constructor <;> simp [transcribe, h1]
  · intro menv p m h1 h2
    constructor <;> simp [transcribe, h1, h2]

/-- Witness for C7: each exception source on a concrete environment yields
the failure value and the corresponding error message. -/
theorem exceptions_converted_to_failure_witness :
    ((convert_to_wav cEnvToolErr "/tmp/a.mp4" "/tmp/c.wav" emptyFS).1 = false
      ∧ Event.stError ("FFmpeg conversion error: " ++ "bad stream")
          ∈ (convert_to_wav cEnvToolErr "/tmp/a.mp4" "/tmp/c.wav" emptyFS).2.2)
    ∧ ((convert_to_wav cEnvToolExn "/tmp/a.mp4" "/tmp/c.wav" emptyFS).1 = false
      ∧ Event.stError ("Unexpected error during conversion: " ++ "oops")
          ∈ (convert_to_wav cEnvToolExn "/tmp/a.mp4" "/tmp/c.wav" emptyFS).2.2)
    ∧ ((transcribe mEnvLoadFails "a.wav").1 = none
      ∧ Event.stError ("Error loading model: " ++ "no weights") ∈ (transcribe mEnvLoadFails "a.wav").2)
    ∧ ((transcribe mEnvRaises "a.wav").1 = none
      ∧ Event.stError ("Error during transcription: " ++ "boom") ∈ (transcribe mEnvRaises "a.wav").2) :=
  ⟨exceptions_converted_to_failure.1 cEnvToolErr "/tmp/a.mp4" "/tmp/c.wav" emptyFS "bad stream" rfl rfl,
   exceptions_converted_to_failure.2.1 cEnvToolExn "/tmp/a.mp4" "/tmp/c.wav" emptyFS "oops" rfl rfl,
   exceptions_converted_to_failure.2.2.1 mEnvLoadFails "a.wav" "no weights" rfl,
   exceptions_converted_to_failure.2.2.2 mEnvRaises "a.wav" "boom" rfl rfl⟩

/-- C8: with the tool absent and Streamlit Cloud environment signals
present, `setup_ffmpeg` fails without any OS-level installation attempt and
the script exits with code 1; in general the exit code is 0 exactly when
the tool is available once the script finishes. -/
theorem setup_ffmpeg_exit_codes :
    (∀ env : SetupEnv, env.whichBefore = false → check_streamlit_cloud env = true →
        setup_ffmpeg env = (false, []) ∧ setup_main_exit_code env = 1)
  ∧ (∀ env : SetupEnv,
        setup_main_exit_code env = if ffmpeg_available_after env then 0 else 1) := by
  constructor
  · intro env h1 h2
    constructor <;> simp [setup_ffmpeg, setup_main_exit_code, h1, h2]
  · intro env
    unfold setup_main_exit_code setup_ffmpeg ffmpeg_available_after
    cases h1 : env.whichBefore
    · simp only [h1, Bool.false_eq_true, if_false]
      cases h2 : check_streamlit_cloud env
      · simp only [h2, Bool.false_eq_true, if_false]
        by_cases h3 : env.system = "linux"
        · simp only [h3, if_true]
          cases h4 : (install_ffmpeg_linux env).1
          · simp [h4]
          · cases h5 : env.whichAfter <;> simp [h4, h5]
        · simp [h3]
      · simp [h2]
    · simp [h1]

/-- Witness for C8: the concrete managed-hosting environment with the tool
absent fails with exit code 1 and no installation attempt. -/
theorem setup_ffmpeg_exit_codes_witness :
    setup_ffmpeg setupEnvCloud = (false, []) ∧ setup_main_exit_code setupEnvCloud = 1 :=
  setup_ffmpeg_exit_codes.1 setupEnvCloud rfl rfl

/-- C9 counterexample: a first result `{"text": 42}` makes `transcribe`
return the integer 42 — a successful value that is neither a string nor
`None`, refuting the claim that the result is always a string or `None`. -/
theorem transcribe_nonstring_result_counterexample :
    str_or_none (transcribe mEnvIntText "audio.wav").1 = false := rfl

/-- C9 (amended): `transcribe` returns the same failure value `none` for an
empty result sequence, an absent result, a raised `generate` exception, and
a failed lazy construction — so those failure kinds are indistinguishable
from the returned value; and every returned value is a string or `None`
except when the first result is a dict whose `text` field holds a
non-string, in which case that field's value is returned as-is. -/
theorem transcribe_failures_indistinguishable :
    (∀ (menv : ModelEnv) (p : String), menv.loadFails = none →
        menv.generate p = GenResult.value (some []) → (transcribe menv p).1 = none)
  ∧ (∀ (menv : ModelEnv) (p : String), menv.loadFails = none →
        menv.generate p = GenResult.value none → (transcribe menv p).1 = none)
  ∧ (∀ (menv : ModelEnv) (p m : String), menv.loadFails = none →
        menv.generate p = GenResult.raises m → (transcribe menv p).1 = none)
  ∧ (∀ (menv : ModelEnv) (p m : String), menv.loadFails = some m →
        (transcribe menv p).1 = none)
  ∧ (∀ (menv : ModelEnv) (p : String),
        str_or_none (transcribe menv p).1 = false →
        ∃ fields rest v, menv.loadFails = none
          ∧ menv.generate p = GenResult.value (some (PyVal.pyDict fields :: rest))
          ∧ dictLookup fields "text" = some v
          ∧ (transcribe menv p).1 = some v) := by
  refine ⟨?_, ?_, ?_, ?_, ?_⟩
  · intro menv p h1 h2
    simp [transcribe, h1, h2, extract_result]
  · intro menv p h1 h2
    simp [transcribe, h1, h2, extract_result]
  · intro menv p m h1 h2
    simp [transcribe, h1, h2]
  · intro menv p m h1
    simp [transcribe, h1]
  · intro menv p h
    cases h1 : menv.loadFails with
    | some m => simp [transcribe, h1, str_or_none] at h
    | none =>
      cases h2 : menv.generate p with
      | raises m => simp [transcribe, h1, h2, str_or_none] at h
      | value r =>
        cases r with
        | none => simp [transcribe, h1, h2, extract_result, str_or_none] at h
        | some l =>
          cases l with
          | nil => simp [transcribe, h1, h2, extract_result, str_or_none] at h
          | cons x rest =>
            cases x with
            | pyNone =>
              simp [transcribe, h1, h2, extract_result, extract_first, str_or_none] at h
            | pyStr s =>
              simp [transcribe, h1, h2, extract_result, extract_first, str_or_none] at h
            | pyInt n =>
              simp [transcribe, h1, h2, extract_result, extract_first, str_or_none] at h
            | pyOther s =>
              simp [transcribe, h1, h2, extract_result, extract_first, str_or_none] at h
            | pyDict fields =>
              cases h3 : dictLookup fields "text" with
              | none =>
                simp [transcribe, h1, h2, extract_result, extract_first, h3, str_or_none] at h
              | some v =>
                exact ⟨fields, rest, v, rfl, rfl, h3,
                  by simp [transcribe, h1, h2, extract_result, extract_first, h3]⟩


/-- Witness for C9: the three failure sources evaluated on concrete
environments all return `none`. -/
theorem transcribe_failures_indistinguishable_witness :
    (transcribe (mEnvOf (some [])) "a.wav").1 = none
    ∧ (transcribe mEnvRaises "a.wav").1 = none
    ∧ (transcribe mEnvLoadFails "a.wav").1 = none :=
  ⟨transcribe_failures_indistinguishable.1 _ "a.wav" rfl rfl,
   transcribe_failures_indistinguishable.2.2.1 _ "a.wav" "boom" rfl rfl,
   transcribe_failures_indistinguishable.2.2.2.1 _ "a.wav" "no weights" rfl⟩

/-- C10: a first result whose `text` field is the empty string is a
successful extraction: `transcribe` returns the empty string (not the
failure value), `process_audio_file` passes it through unchanged, and only
the UI truthiness check afterwards classifies it as a failure. -/
theorem empty_text_success_passthrough :
    (∀ (menv : ModelEnv) (p : String),
        menv.loadFails = none →
        menv.generate p = GenResult.value (some [PyVal.pyDict (.cons "text" (.pyStr "") .nil)]) →
        (transcribe menv p).1 = some (PyVal.pyStr ""))
  ∧ (∀ (u : Upload) (menv : ModelEnv) (cenv : ConvEnv) (tempDir : String) (fs0 : FS),
        strLower (pySuffix u.name) ∈ FUNASR_SUPPORTED_FORMATS →
        menv.loadFails = none →
        menv.generate (pathJoin tempDir u.name)
          = GenResult.value (some [PyVal.pyDict (.cons "text" (.pyStr "") .nil)]) →
        (process_audio_file u menv cenv tempDir fs0).result = some (PyVal.pyStr ""))
  ∧ transcription_displayed (some (PyVal.pyStr "")) = false := by
  refine ⟨?_, ?_, rfl⟩
  · intro menv p h1 h2
    simp [transcribe, h1, h2, extract_result, extract_first, dictLookup]
  · intro u menv cenv tempDir fs0 hext h1 h2
    unfold process_audio_file process_audio_body
    simp [hext, transcribe, h1, h2, extract_result, extract_first, dictLookup]

/-- Witness for C10: a concrete `speech.wav` upload whose model reports an
empty text field yields the empty string as the result, which the UI check
does not display as a success. -/
theorem empty_text_success_passthrough_witness :
    (transcribe (mEnvOf (some [PyVal.pyDict (.cons "text" (.pyStr "") .nil)])) "a.wav").1
        = some (PyVal.pyStr "")
    ∧ (process_audio_file sampleWav
         (mEnvOf (some [PyVal.pyDict (.cons "text" (.pyStr "") .nil)]))
         cEnvOk "/tmp/req" emptyFS).result = some (PyVal.pyStr "") :=
  ⟨empty_text_success_passthrough.1 _ "a.wav" rfl rfl,
   empty_text_success_passthrough.2.1 sampleWav _ cEnvOk "/tmp/req" emptyFS (by decide) rfl rfl⟩
